import Mathlib

/-!
Verification of the adaptive-retry execution controller and benchmark driver
of the `model_navigator` offline performance test.

The embedding follows the two source files:
  * `model_navigator/perf_analyzer/perf_analyzer.py` (class `PerfAnalyzer`)
  * `model_navigator/cli/run_offline_performance_test_on_triton.py`

Machine integers are modelled as `Int`/`Nat`; captured process output as
`String`; Python dictionaries as lookup functions / association lists.
-/

set_option autoImplicit false

namespace ModelNavigator

/-! ## Python string primitives -/

/-- Python `str.find` over explicit character lists: index of the first
occurrence of `sub` in `s`, or `-1` when `sub` does not occur. -/
def pyFindList (s sub : List Char) : Int :=
  match (List.range (s.length + 1)).find? (fun i => decide ((s.drop i).take sub.length = sub)) with
  | some i => (i : Int)
  | none => -1

/-- Python `str.find` on `String`s. -/
def pyFind (s sub : String) : Int :=
  pyFindList s.data sub.data

/-- Python `sub in s` (substring containment), i.e. `s.find(sub) != -1`. -/
def pyContains (s sub : String) : Bool :=
  decide (pyFind s sub ≠ -1)

/-! ## The controller's configuration and constants

`perf_analyzer.py` constants: `MAX_INTERVAL_CHANGES = 10`,
`COUNT_INTERVAL_DELTA = 50`, `TIME_INTERVAL_DELTA = 2000`. -/

def MAX_INTERVAL_CHANGES : Nat := 10

def COUNT_INTERVAL_DELTA : Int := 50

def TIME_INTERVAL_DELTA : Int := 2000

/-- The parameter set handed to the controller. The controller reads
`measurement-mode` (unset keys read as `None`, hence `Option`) and mutates
`measurement-request-count` / `measurement-interval`; every other parameter is
kept in `other` and never touched by the retry machinery. -/
structure PerfConfig where
  measurement_mode : Option String
  measurement_request_count : Int
  measurement_interval : Int
  other : List (String × String)
  deriving DecidableEq

/-- Mutable controller state during `run`: the config (`self._config`) and the
stored output (`self._output`, `none` standing for Python `None`). -/
structure RunState where
  config : PerfConfig
  output : Option String
  deriving DecidableEq

/-! ## Failure classification and parameter adaptation -/

/-- Literal `output.find("Failed to obtain stable measurement") or
output.find("Please use a larger time window") != -1` from
`PerfAnalyzer._faild_with_measruement_inverval`, as the truth value of the
Python expression.  Python operator precedence applies `!= -1` only to the
second `find`; the first operand is the raw index, truthy iff nonzero — so a
not-found `-1` on the first substring is truthy. -/
def faild_with_measruement_inverval (output : String) : Bool :=
  decide (pyFind output "Failed to obtain stable measurement" ≠ 0) ||
  decide (pyFind output "Please use a larger time window" ≠ -1)

/-- Method `PerfAnalyzer._increase_request_count`: `measurement-request-count += 50`. -/
def increase_request_count (c : PerfConfig) : PerfConfig :=
  { c with measurement_request_count := c.measurement_request_count + COUNT_INTERVAL_DELTA }

/-- Method `PerfAnalyzer._increase_time_interval`: `measurement-interval += 2000`. -/
def increase_time_interval (c : PerfConfig) : PerfConfig :=
  { c with measurement_interval := c.measurement_interval + TIME_INTERVAL_DELTA }

/-! ## One process invocation

The external process is the environment: per attempt it either finishes with
an exit code and combined stdout/stderr text, or the per-attempt timeout
expires after producing some partial text. -/

/-- Behaviour of the external process on one invocation. -/
inductive AttemptSpec where
  /-- Process finished with exit status `returncode`, producing `text`. -/
  | completed (returncode : Int) (text : String)
  /-- Per-attempt timeout expired; `part` is the text produced before expiry. -/
  | timeout (part : String)
  deriving DecidableEq

/-- Outcome of one iteration of the `for` loop body in `PerfAnalyzer.run`. -/
inductive StepResult where
  /-- Zero exit status: output stored, `run` returns. -/
  | done (st : RunState)
  /-- A `CalledProcessError` classified retryable: config mutated, loop again. -/
  | retry (st : RunState)
  /-- A `CalledProcessError` not classified retryable: `ModelNavigatorException`
  carrying the exit code and captured output. -/
  | fatal (returncode : Int) (output : String) (st : RunState)
  /-- Buffered mode only: `subprocess.TimeoutExpired` propagates uncaught. -/
  | timeoutRaised (st : RunState)
  deriving DecidableEq

/-- The `except CalledProcessError` handler in `PerfAnalyzer.run`: classify via
`_faild_with_measruement_inverval(e.output)`; when retryable, adapt
`measurement-request-count` if `measurement-mode` is `None` or
`"count_windows"`, else `measurement-interval`; otherwise raise. -/
def classifyFailure (st : RunState) (rc : Int) (out : String) : StepResult :=
  if faild_with_measruement_inverval out then
    if st.config.measurement_mode = none ∨ st.config.measurement_mode = some "count_windows" then
      StepResult.retry { st with config := increase_request_count st.config }
    else
      StepResult.retry { st with config := increase_time_interval st.config }
  else
    StepResult.fatal rc out st

/-- One loop iteration.  Buffered mode (`stream = false`): `check_output`
stores the text on success, raises `CalledProcessError` with the captured text
on non-zero exit, and raises `TimeoutExpired` (uncaught by `run`) on timeout.
Streamed mode (`stream = true`): `_run_with_stream` appends the attempt's text
to the accumulated `self._output`; non-zero exit raises `CalledProcessError`
whose `output` is the whole accumulated text, and timeout surfaces as the
`timeout` wrapper's exit status `124` with the partial text accumulated. -/
def attemptStep (stream : Bool) (spec : AttemptSpec) (st : RunState) : StepResult :=
  if stream then
    match spec with
    | AttemptSpec.completed rc text =>
      let acc := st.output.getD "" ++ text
      let st' : RunState := { st with output := some acc }
      if rc = 0 then StepResult.done st' else classifyFailure st' rc acc
    | AttemptSpec.timeout part =>
      let acc := st.output.getD "" ++ part
      let st' : RunState := { st with output := some acc }
      classifyFailure st' 124 acc
  else
    match spec with
    | AttemptSpec.completed rc text =>
      if rc = 0 then StepResult.done { st with output := some text }
      else classifyFailure st rc text
    | AttemptSpec.timeout _ => StepResult.timeoutRaised st

/-! ## The retry loop -/

/-- Terminal outcome of `PerfAnalyzer.run`. -/
inductive RunResult where
  /-- Normal return from `run`. -/
  | completed
  /-- The `ModelNavigatorException` raised for a non-retryable attempt failure,
  carrying the exit status and the captured output. -/
  | failedAttempt (returncode : Int) (output : String)
  /-- The `ModelNavigatorException` raised after the loop: ran
  `MAX_INTERVAL_CHANGES` times without a valid run. -/
  | exhausted
  /-- Uncaught `subprocess.TimeoutExpired` (buffered mode). -/
  | timeoutExpired
  deriving DecidableEq

/-- The `for _ in range(MAX_INTERVAL_CHANGES)` loop of `PerfAnalyzer.run`,
with `n` iterations left and `i` the index of the next attempt in `env`.
Returns the configs each performed invocation used, the final state, and the
terminal result. -/
def runFrom (stream : Bool) (env : Nat → AttemptSpec) :
    Nat → Nat → RunState → List PerfConfig × RunState × RunResult
  | 0, _, st => ([], st, RunResult.exhausted)
  | n + 1, i, st =>
    match attemptStep stream (env i) st with
    | StepResult.done st' => ([st.config], st', RunResult.completed)
    | StepResult.fatal rc out st' => ([st.config], st', RunResult.failedAttempt rc out)
    | StepResult.timeoutRaised st' => ([st.config], st', RunResult.timeoutExpired)
    | StepResult.retry st' =>
      match runFrom stream env n (i + 1) st' with
      | (cfgs, stF, res) => (st.config :: cfgs, stF, res)

/-- Observable outcome of one `PerfAnalyzer.run` call. -/
structure RunOutcome where
  /-- Configuration in effect at each process invocation, in order. -/
  attemptConfigs : List PerfConfig
  /-- Terminal result. -/
  result : RunResult
  /-- Value of `self._config` after the call. -/
  finalConfig : PerfConfig
  /-- Value of `self._output` after the call. -/
  finalOutput : Option String
  deriving DecidableEq

/-- Method `PerfAnalyzer.run`: reset the accumulated output (streamed mode only),
then loop at most `MAX_INTERVAL_CHANGES` times. -/
def run (stream : Bool) (env : Nat → AttemptSpec) (st0 : RunState) : RunOutcome :=
  let st1 := if stream then { st0 with output := some "" } else st0
  match runFrom stream env MAX_INTERVAL_CHANGES 0 st1 with
  | (cfgs, stF, res) => ⟨cfgs, res, stF.config, stF.output⟩

/-- Message of the exception raised by `PerfAnalyzer.output` on a falsy
stored output. -/
def runFirstError : String :=
  "Attempted to get perf_analyzer output without calling run first."

/-- Method `PerfAnalyzer.output`: `if self._output: return self._output` — raises the
"without calling run first" `ModelNavigatorException` when the stored output
is `None` or falsy (the empty string). -/
def PerfAnalyzer.output (stored : Option String) : Except String String :=
  match stored with
  | some s => if s = "" then Except.error runFirstError else Except.ok s
  | none => Except.error runFirstError

/-- Text produced by one invocation of the external process (`attemptText` of
a `completed` attempt is its combined stdout/stderr; of a timed-out attempt,
the partial text emitted before expiry). -/
def attemptText : AttemptSpec → String
  | AttemptSpec.completed _ text => text
  | AttemptSpec.timeout part => part

/-- Concatenation of the texts of attempts `i, i+1, …, i+m-1`. -/
def segTexts (env : Nat → AttemptSpec) (i : Nat) : Nat → String
  | 0 => ""
  | m + 1 => attemptText (env i) ++ segTexts env (i + 1) m

/-! ## The benchmark driver
(`cli/run_offline_performance_test_on_triton.py`) -/

/-- A parsed row of the scratch metrics CSV, as `csv.DictReader` yields it:
column name to (integer-parsed) value. -/
abbrev CsvRow := List (String × Int)

/-- Python `r.get(k)` on a CSV row dict. -/
def rowGet (r : CsvRow) (k : String) : Option Int :=
  (r.find? (fun p => decide (p.1 = k))).map (fun p => p.2)

/-- The `avg_sum_fields` list of `calculate_average_latency`. -/
def avg_sum_fields : List String :=
  ["Client Send", "Network+Server Send/Recv", "Server Queue", "Server Compute",
   "Server Compute Input", "Server Compute Infer", "Server Compute Output", "Client Recv"]

/-- Function `calculate_average_latency(r)`: `sum([int(r.get(f, 0)) for f in avg_sum_fields])`. -/
def calculate_average_latency (r : CsvRow) : Int :=
  (avg_sum_fields.map (fun f => (rowGet r f).getD 0)).sum

/-- A Python dict over string keys with integer values, as a lookup function. -/
abbrev PyDict := String → Option Int

/-- One iteration of the reader loop in `update_performance_data`:
`row = {**row, **r, "avg latency": calculate_average_latency(r)}`.  A key is
looked up in the explicit `"avg latency"` entry first, then `r`, then the
accumulated `row` (later entries of a dict display win). -/
def mergeRow (row : PyDict) (r : CsvRow) : PyDict :=
  fun k =>
    if k = "avg latency" then some (calculate_average_latency r)
    else
      match rowGet r k with
      | some v => some v
      | none => row k

/-- Function `update_performance_data`: start from the dict with only the
`batch_size` entry, fold
the merge over the CSV rows, and return the row that is appended to
`results`. -/
def update_performance_data (batch_size : Int) (rows : List CsvRow) : PyDict :=
  rows.foldl mergeRow (fun k => if k = "batch_size" then some batch_size else none)

/-- A `PerfAnalyzer` object as `__init__` builds it (`self.bin_path` is the
constant `"perf_analyzer"` and is omitted). -/
structure PerfAnalyzerObj where
  config : PerfConfig
  timeout : Int
  stream_output : Bool
  output : Option String

/-- Python `TypeError`, raised when a required positional argument is
missing at a call site. -/
inductive PyError where
  | typeError
  deriving DecidableEq

/-- Construction of `PerfAnalyzer(config, timeout, stream_output=False)`:
`timeout` has no default value, so a call site that does not supply it raises
`TypeError` before any object exists.  `self._output` starts as `None`. -/
def PerfAnalyzer.init (config : PerfConfig) (timeout : Option Int) (stream_output : Option Bool) :
    Except PyError PerfAnalyzerObj :=
  match timeout with
  | some t => Except.ok { config := config, timeout := t, stream_output := stream_output.getD false, output := none }
  | none => Except.error PyError.typeError

/-- Terminal outcome of `offline_performance`. -/
inductive SweepResult where
  /-- An unhandled `TypeError` aborts the sweep with a traceback. -/
  | typeError
  /-- Branch `except ModelNavigatorException`: the failure is logged and the sweep
  terminates via `sys.exit(1)`; carries the controller's terminal failure. -/
  | exitOne (failure : RunResult)
  /-- Uncaught `subprocess.TimeoutExpired` propagating out of `run`. -/
  | uncaughtTimeout
  /-- All batch sizes processed; carries the accumulated result rows in
  processing order (sorting/saving them is done by collaborators outside the
  two source files). -/
  | report (rows : List PyDict)

/-- The per-batch-size loop of `offline_performance`.  `envs b` is the
external process behaviour for batch size `b`, `csv b` the rows of the
scratch metrics file it writes, and `mkcfg b` the `PerfAnalyzerConfig` built
from the parameter dict (its internal defaults live outside the two source
files, so it is held abstract).  The loop body constructs
`PerfAnalyzer(perf_config, stream_output=True)` — `config` positionally and
`stream_output` by keyword, but not the required `timeout` argument. -/
def offline_performance (envs : Int → Nat → AttemptSpec) (csv : Int → List CsvRow)
    (mkcfg : Int → PerfConfig) : List Int → List PyDict → SweepResult
  | [], acc => SweepResult.report acc
  | b :: rest, acc =>
    match PerfAnalyzer.init (mkcfg b) none (some true) with
    | Except.error _ => SweepResult.typeError
    | Except.ok pa =>
      let o := run pa.stream_output (envs b) ⟨pa.config, pa.output⟩
      match o.result with
      | RunResult.completed =>
        offline_performance envs csv mkcfg rest (acc ++ [update_performance_data b (csv b)])
      | RunResult.timeoutExpired => SweepResult.uncaughtTimeout
      | RunResult.failedAttempt rc out => SweepResult.exitOne (RunResult.failedAttempt rc out)
      | RunResult.exhausted => SweepResult.exitOne RunResult.exhausted

/-! ## String helper lemmas -/

theorem string_append_empty (s : String) : s ++ "" = s :=
  congrArg String.mk (List.append_nil s.data)

theorem string_append_assoc (a b c : String) : (a ++ b) ++ c = a ++ (b ++ c) :=
  congrArg String.mk (List.append_assoc a.data b.data c.data)

theorem string_data_append (a b : String) : (a ++ b).data = a.data ++ b.data :=
  rfl

/-- Characterization of `pyFindList`: the result is `-1` exactly when no
position carries an occurrence of `sub`. -/
theorem pyFindList_ne_neg_one_iff (s sub : List Char) :
    pyFindList s sub ≠ -1 ↔
      ∃ i, i ∈ List.range (s.length + 1) ∧ (s.drop i).take sub.length = sub := by
  unfold pyFindList
  cases h : (List.range (s.length + 1)).find?
      (fun i => decide ((s.drop i).take sub.length = sub)) with
  | none =>
    simp only [ne_eq, not_true_eq_false, false_iff]
    rintro ⟨i, hi, hocc⟩
    have := List.find?_eq_none.mp h i hi
    simp [hocc] at this
  | some i =>
    have hp : ((s.drop i).take sub.length = sub) := by
      have := List.find?_some h
      simpa using this
    have hm : i ∈ List.range (s.length + 1) := List.mem_of_find?_eq_some h
    simp only [ne_eq]
    constructor
    · intro _; exact ⟨i, hm, hp⟩
    · intro _; omega

/-- Containment is preserved by prepending text, as it is for Python
`in`. -/
theorem pyContains_append_right (x o sub : String)
    (h : pyContains o sub = true) : pyContains (x ++ o) sub = true := by
  unfold pyContains pyFind at h ⊢
  rw [decide_eq_true_iff] at h ⊢
  rw [pyFindList_ne_neg_one_iff] at h ⊢
  obtain ⟨i, hi, hocc⟩ := h
  refine ⟨x.data.length + i, ?_, ?_⟩
  · rw [string_data_append, List.length_append]
    rw [List.mem_range] at hi ⊢
    omega
  · rw [string_data_append]
    have hd : (x.data ++ o.data).drop (x.data.length + i) = o.data.drop i := by
      rw [← List.drop_drop, List.drop_left]
    rw [hd, hocc]

/-- Any output containing "Please use a larger time window" is classified
retryable by `_faild_with_measruement_inverval` (through the second
disjunct). -/
theorem faild_of_contains_window (o : String)
    (h : pyContains o "Please use a larger time window" = true) :
    faild_with_measruement_inverval o = true := by
  unfold pyContains at h
  unfold faild_with_measruement_inverval
  rw [h]
  exact Bool.or_true _

/-! ## Loop invariants of `runFrom` -/

/-- The classification of a failed attempt is either fatal (carrying exactly
the exit code and captured text) or a retry that changes only the config. -/
theorem classifyFailure_cases (st : RunState) (rc : Int) (out : String) :
    classifyFailure st rc out = StepResult.fatal rc out st ∨
    ∃ c, classifyFailure st rc out = StepResult.retry { st with config := c } := by
  unfold classifyFailure
  split
  · split
    · exact Or.inr ⟨_, rfl⟩
    · exact Or.inr ⟨_, rfl⟩
  · exact Or.inl rfl

/-- The loop performs at most `n` invocations when `n` iterations remain. -/
theorem runFrom_length_le (stream : Bool) (env : Nat → AttemptSpec) :
    ∀ (n i : Nat) (st : RunState), (runFrom stream env n i st).1.length ≤ n := by
  intro n
  induction n with
  | zero => intro i st; simp [runFrom]
  | succ n ih =>
    intro i st
    simp only [runFrom]
    cases hs : attemptStep stream (env i) st with
    | done st' => simp
    | fatal rc out st' => simp
    | timeoutRaised st' => simp
    | retry st' =>
      have hrec := ih (i + 1) st'
      simp only [List.length_cons]
      omega

/-- When the loop ends in the ceiling-exhaustion failure, it performed
exactly `n` invocations. -/
theorem runFrom_exhausted_length (stream : Bool) (env : Nat → AttemptSpec) :
    ∀ (n i : Nat) (st : RunState), (runFrom stream env n i st).2.2 = RunResult.exhausted →
      (runFrom stream env n i st).1.length = n := by
  intro n
  induction n with
  | zero => intro i st _; simp [runFrom]
  | succ n ih =>
    intro i st
    simp only [runFrom]
    cases hs : attemptStep stream (env i) st with
    | done st' => intro h; simp at h
    | fatal rc out st' => intro h; simp at h
    | timeoutRaised st' => intro h; simp at h
    | retry st' =>
      intro h
      simp only [List.length_cons]
      have hrec := ih (i + 1) st' (by simpa using h)
      omega

/-- When every attempt is classified retryable, the loop consumes all its
iterations and ends exhausted. -/
theorem runFrom_all_retry_exhausted (stream : Bool) (env : Nat → AttemptSpec)
    (hall : ∀ i st, ∃ st', attemptStep stream (env i) st = StepResult.retry st') :
    ∀ (n i : Nat) (st : RunState), (runFrom stream env n i st).2.2 = RunResult.exhausted := by
  intro n
  induction n with
  | zero => intro i st; simp [runFrom]
  | succ n ih =>
    intro i st
    obtain ⟨st', hs⟩ := hall i st
    simp only [runFrom, hs]
    exact ih (i + 1) st'

/-- With at least one iteration left, the head of the invocation trace is the
entry config. -/
theorem runFrom_cons (stream : Bool) (env : Nat → AttemptSpec) (n i : Nat) (st : RunState) :
    ∃ t, (runFrom stream env (n + 1) i st).1 = st.config :: t := by
  simp only [runFrom]
  cases hs : attemptStep stream (env i) st with
  | done st' => exact ⟨[], rfl⟩
  | fatal rc out st' => exact ⟨[], rfl⟩
  | timeoutRaised st' => exact ⟨[], rfl⟩
  | retry st' => exact ⟨_, rfl⟩

/-- Streamed-capture accumulation invariant: entering an iteration with
accumulated text `acc`, a completed loop stores `acc` followed by the texts of
every attempt it performed, and a fatal attempt failure carries exactly that
concatenation — the accumulator is never reset between attempts. -/
theorem runFrom_stream_acc (env : Nat → AttemptSpec) :
    ∀ (n i : Nat) (st : RunState) (acc : String), st.output = some acc →
      ((runFrom true env n i st).2.2 = RunResult.completed →
        (runFrom true env n i st).2.1.output =
          some (acc ++ segTexts env i (runFrom true env n i st).1.length)) ∧
      (∀ rc out, (runFrom true env n i st).2.2 = RunResult.failedAttempt rc out →
        out = acc ++ segTexts env i (runFrom true env n i st).1.length) := by
  intro n
  induction n with
  | zero =>
    intro i st acc hacc
    constructor
    · intro h; simp [runFrom] at h
    · intro rc out h; simp [runFrom] at h
  | succ n ih =>
    intro i st acc hacc
    cases hspec : env i with
    | completed rc text =>
      have hstep : attemptStep true (env i) st =
          if rc = 0 then StepResult.done { st with output := some (acc ++ text) }
          else classifyFailure { st with output := some (acc ++ text) } rc (acc ++ text) := by
        simp [attemptStep, hspec, hacc]
      by_cases hrc : rc = 0
      · simp only [runFrom, hstep, if_pos hrc]
        constructor
        · intro _
          simp [segTexts, attemptText, hspec, string_append_empty]
        · intro rc' out h; simp at h
      · rcases classifyFailure_cases { st with output := some (acc ++ text) } rc (acc ++ text)
          with hcl | ⟨c, hcl⟩
        · simp only [runFrom, hstep, if_neg hrc, hcl]
          constructor
          · intro h; simp at h
          · intro rc' out h
            simp only [RunResult.failedAttempt.injEq] at h
            rw [← h.2]
            simp [segTexts, attemptText, hspec, string_append_empty]
        · simp only [runFrom, hstep, if_neg hrc, hcl]
          have hrec := ih (i + 1) { st with output := some (acc ++ text), config := c }
            (acc ++ text) rfl
          constructor
          · intro h
            have h1 := hrec.1 (by simpa using h)
            simp only [List.length_cons]
            rw [h1]
            simp [segTexts, attemptText, hspec, string_append_assoc]
          · intro rc' out h
            have h2 := hrec.2 rc' out (by simpa using h)
            simp only [List.length_cons]
            rw [h2]
            simp [segTexts, attemptText, hspec, string_append_assoc]
    | timeout part =>
      have hstep : attemptStep true (env i) st =
          classifyFailure { st with output := some (acc ++ part) } 124 (acc ++ part) := by
        simp [attemptStep, hspec, hacc]
      rcases classifyFailure_cases { st with output := some (acc ++ part) } 124 (acc ++ part)
        with hcl | ⟨c, hcl⟩
      · simp only [runFrom, hstep, hcl]
        constructor
        · intro h; simp at h
        · intro rc' out h
          simp only [RunResult.failedAttempt.injEq] at h
          rw [← h.2]
          simp [segTexts, attemptText, hspec, string_append_empty]
      · simp only [runFrom, hstep, hcl]
        have hrec := ih (i + 1) { st with output := some (acc ++ part), config := c }
          (acc ++ part) rfl
        constructor
        · intro h
          have h1 := hrec.1 (by simpa using h)
          simp only [List.length_cons]
          rw [h1]
          simp [segTexts, attemptText, hspec, string_append_assoc]
        · intro rc' out h
          have h2 := hrec.2 rc' out (by simpa using h)
          simp only [List.length_cons]
          rw [h2]
          simp [segTexts, attemptText, hspec, string_append_assoc]

theorem string_empty_append (s : String) : "" ++ s = s := rfl

/-- One loop iteration whose attempt is classified retryable continues with
the mutated state and one more recorded invocation. -/
theorem runFrom_step_retry (stream : Bool) (env : Nat → AttemptSpec) (n i : Nat)
    (st st' : RunState) (h : attemptStep stream (env i) st = StepResult.retry st') :
    runFrom stream env (n + 1) i st =
      (st.config :: (runFrom stream env n (i + 1) st').1,
       (runFrom stream env n (i + 1) st').2.1, (runFrom stream env n (i + 1) st').2.2) := by
  simp only [runFrom, h]

/-- One loop iteration whose attempt succeeds terminates the loop. -/
theorem runFrom_step_done (stream : Bool) (env : Nat → AttemptSpec) (n i : Nat)
    (st st' : RunState) (h : attemptStep stream (env i) st = StepResult.done st') :
    runFrom stream env (n + 1) i st = ([st.config], st', RunResult.completed) := by
  simp only [runFrom, h]

/-! ## The claims -/

/-- Claim C1, evaluated at its failing input: the output
"Failed to obtain stable measurement" (the instability substring itself,
hence at index 0) with exit status 1 is NOT classified retryable — the
missing `!= -1` on the first `find` makes index `0` falsy — so `run` raises
the fatal `ModelNavigatorException` instead of retrying with an adapted
parameter, contradicting the claim. -/
theorem claim_C1_stable_message_not_retried :
    pyContains "Failed to obtain stable measurement" "Failed to obtain stable measurement" = true ∧
    faild_with_measruement_inverval "Failed to obtain stable measurement" = false ∧
    (run false (fun _ => AttemptSpec.completed 1 "Failed to obtain stable measurement")
        ⟨⟨none, 100, 5000, []⟩, none⟩).result
      = RunResult.failedAttempt 1 "Failed to obtain stable measurement" ∧
    (run false (fun _ => AttemptSpec.completed 1 "Failed to obtain stable measurement")
        ⟨⟨none, 100, 5000, []⟩, none⟩).finalConfig = ⟨none, 100, 5000, []⟩ := by
  decide

/-- Claim C2, evaluated at its failing input: an output containing neither
instability substring ("connection refused") with exit status 1 IS classified
retryable — `output.find(...)` is `-1`, which is truthy — so `run` mutates
`measurement-request-count` ten times and ends exhausted instead of
terminating immediately with the exit code and text, contradicting the
claim. -/
theorem claim_C2_unrelated_failure_retried :
    pyContains "connection refused" "Failed to obtain stable measurement" = false ∧
    pyContains "connection refused" "Please use a larger time window" = false ∧
    faild_with_measruement_inverval "connection refused" = true ∧
    (run false (fun _ => AttemptSpec.completed 1 "connection refused")
        ⟨⟨none, 100, 5000, []⟩, none⟩).result = RunResult.exhausted ∧
    (run false (fun _ => AttemptSpec.completed 1 "connection refused")
        ⟨⟨none, 100, 5000, []⟩, none⟩).attemptConfigs.length = 10 ∧
    (run false (fun _ => AttemptSpec.completed 1 "connection refused")
        ⟨⟨none, 100, 5000, []⟩, none⟩).finalConfig.measurement_request_count = 600 := by
  decide

/-- Claim C3: a `run` call performs at most `MAX_INTERVAL_CHANGES = 10`
process invocations; the ceiling-exhaustion failure (a distinct terminal
result) is reported exactly after the 10th invocation; and when every attempt
is classified retryable the run ends exhausted rather than attempting an
11th invocation. -/
theorem claim_C3_retry_ceiling (stream : Bool) (env : Nat → AttemptSpec) (st0 : RunState) :
    (run stream env st0).attemptConfigs.length ≤ 10 ∧
    ((run stream env st0).result = RunResult.exhausted →
      (run stream env st0).attemptConfigs.length = 10) ∧
    ((∀ i st, ∃ st', attemptStep stream (env i) st = StepResult.retry st') →
      (run stream env st0).result = RunResult.exhausted) := by
  refine ⟨?_, ?_, ?_⟩
  · have h := runFrom_length_le stream env MAX_INTERVAL_CHANGES 0
      (if stream then { st0 with output := some "" } else st0)
    simpa [run] using h
  · intro h
    have h2 := runFrom_exhausted_length stream env MAX_INTERVAL_CHANGES 0
      (if stream then { st0 with output := some "" } else st0) (by simpa [run] using h)
    simpa [run] using h2
  · intro hall
    have h3 := runFrom_all_retry_exhausted stream env hall MAX_INTERVAL_CHANGES 0
      (if stream then { st0 with output := some "" } else st0)
    simpa [run] using h3

/-- Witness for C3: an environment in which every attempt fails retryably
(exit 1, output classified retryable) drives `run` to the exhaustion failure
after exactly 10 invocations. -/
theorem claim_C3_retry_ceiling_witness :
    (run false (fun _ => AttemptSpec.completed 1 "no measurement text")
        ⟨⟨none, 0, 0, []⟩, none⟩).result = RunResult.exhausted ∧
    (run false (fun _ => AttemptSpec.completed 1 "no measurement text")
        ⟨⟨none, 0, 0, []⟩, none⟩).attemptConfigs.length = 10 := by
  have hf : faild_with_measruement_inverval "no measurement text" = true := by decide
  have hall : ∀ (i : Nat) (st : RunState), ∃ st',
      attemptStep false ((fun (_ : Nat) => AttemptSpec.completed 1 "no measurement text") i) st
        = StepResult.retry st' := by
    intro i st
    by_cases hc : st.config.measurement_mode = none ∨ st.config.measurement_mode = some "count_windows"
    · exact ⟨{ config := increase_request_count st.config, output := st.output },
        by simp [attemptStep, classifyFailure, hf, hc]⟩
    · exact ⟨{ config := increase_time_interval st.config, output := st.output },
        by simp [attemptStep, classifyFailure, hf, hc]⟩
  have h := claim_C3_retry_ceiling false (fun _ => AttemptSpec.completed 1 "no measurement text")
    ⟨⟨none, 0, 0, []⟩, none⟩
  exact ⟨h.2.2 hall, h.2.1 (h.2.2 hall)⟩

/-- Unfolded form of `run`. -/
theorem run_def (stream : Bool) (env : Nat → AttemptSpec) (st0 : RunState) :
    run stream env st0 =
      { attemptConfigs := (runFrom stream env MAX_INTERVAL_CHANGES 0
          (if stream then { st0 with output := some "" } else st0)).1,
        result := (runFrom stream env MAX_INTERVAL_CHANGES 0
          (if stream then { st0 with output := some "" } else st0)).2.2,
        finalConfig := (runFrom stream env MAX_INTERVAL_CHANGES 0
          (if stream then { st0 with output := some "" } else st0)).2.1.config,
        finalOutput := (runFrom stream env MAX_INTERVAL_CHANGES 0
          (if stream then { st0 with output := some "" } else st0)).2.1.output } := rfl

/-- Claim C4, refuted at a concrete input: in streamed mode a per-attempt
timeout (exit 124 of the `timeout` wrapper, empty partial output) is
classified retryable, `measurement-request-count` is adapted, and a second
attempt follows — the run even completes — contradicting "surfaced as an
immediate fatal failure and never classified as retryable". -/
theorem claim_C4_counterexample :
    (run true (fun i => if i = 0 then AttemptSpec.timeout "" else AttemptSpec.completed 0 "done")
        ⟨⟨none, 100, 5000, []⟩, none⟩).result = RunResult.completed ∧
    (run true (fun i => if i = 0 then AttemptSpec.timeout "" else AttemptSpec.completed 0 "done")
        ⟨⟨none, 100, 5000, []⟩, none⟩).attemptConfigs.length = 2 ∧
    (run true (fun i => if i = 0 then AttemptSpec.timeout "" else AttemptSpec.completed 0 "done")
        ⟨⟨none, 100, 5000, []⟩, none⟩).finalConfig.measurement_request_count = 150 := by
  decide

/-- Claim C4 as amended: in buffered capture mode, timeout expiry is an
immediate fatal failure of the run — a single invocation, uncaught
`TimeoutExpired`, no parameter mutation; in streamed capture mode, timeout
expiry surfaces as an ordinary non-zero exit (code 124 of the `timeout`
wrapper) subject to the same substring classification as any other failure,
so when the accumulated text is classified retryable a second attempt is made
with exactly one parameter adapted. -/
theorem claim_C4_amended (env : Nat → AttemptSpec) (st0 : RunState) (p : String)
    (henv : env 0 = AttemptSpec.timeout p) :
    ((run false env st0).result = RunResult.timeoutExpired ∧
     (run false env st0).attemptConfigs = [st0.config] ∧
     (run false env st0).finalConfig = st0.config ∧
     (run false env st0).finalOutput = st0.output) ∧
    (faild_with_measruement_inverval p = true →
      (run true env st0).attemptConfigs.take 2 =
        [st0.config,
         if st0.config.measurement_mode = none ∨ st0.config.measurement_mode = some "count_windows"
         then increase_request_count st0.config
         else increase_time_interval st0.config]) := by
  constructor
  · have hstep : attemptStep false (env 0) st0 = StepResult.timeoutRaised st0 := by
      simp [attemptStep, henv]
    have hrun : runFrom false env MAX_INTERVAL_CHANGES 0 st0 =
        ([st0.config], st0, RunResult.timeoutExpired) := by
      rw [show (MAX_INTERVAL_CHANGES : Nat) = 9 + 1 from rfl]
      simp only [runFrom, hstep]
    rw [run_def]
    simp [hrun]
  · intro hf
    by_cases hc : st0.config.measurement_mode = none ∨ st0.config.measurement_mode = some "count_windows"
    · rw [if_pos hc]
      have hstep : attemptStep true (env 0) { st0 with output := some "" } =
          StepResult.retry { config := increase_request_count st0.config, output := some p } := by
        simp [attemptStep, henv, classifyFailure, string_empty_append, hf, hc]
      obtain ⟨t, ht⟩ := runFrom_cons true env 8 1
        { config := increase_request_count st0.config, output := some p }
      have ht9 : (runFrom true env 9 1
          { config := increase_request_count st0.config, output := some p }).1 =
          PerfConfig.mk st0.config.measurement_mode
            (st0.config.measurement_request_count + COUNT_INTERVAL_DELTA)
            st0.config.measurement_interval st0.config.other :: t := ht
      rw [run_def]
      simp only [if_true]
      rw [show (MAX_INTERVAL_CHANGES : Nat) = 9 + 1 from rfl,
        runFrom_step_retry true env 9 0 _ _ hstep]
      simp only [increase_request_count] at ht9
      simp [ht9, increase_request_count]
    · rw [if_neg hc]
      have hstep : attemptStep true (env 0) { st0 with output := some "" } =
          StepResult.retry { config := increase_time_interval st0.config, output := some p } := by
        simp [attemptStep, henv, classifyFailure, string_empty_append, hf, hc]
      obtain ⟨t, ht⟩ := runFrom_cons true env 8 1
        { config := increase_time_interval st0.config, output := some p }
      have ht9 : (runFrom true env 9 1
          { config := increase_time_interval st0.config, output := some p }).1 =
          PerfConfig.mk st0.config.measurement_mode st0.config.measurement_request_count
            (st0.config.measurement_interval + TIME_INTERVAL_DELTA)
            st0.config.other :: t := ht
      rw [run_def]
      simp only [if_true]
      rw [show (MAX_INTERVAL_CHANGES : Nat) = 9 + 1 from rfl,
        runFrom_step_retry true env 9 0 _ _ hstep]
      simp only [increase_time_interval] at ht9
      simp [ht9, increase_time_interval]

/-- Witness for the amended C4, at a concrete timed-out first attempt. -/
theorem claim_C4_amended_witness :
    ((run false (fun (_ : Nat) => AttemptSpec.timeout "x")
        ⟨⟨none, 100, 5000, []⟩, none⟩).result = RunResult.timeoutExpired ∧
     (run false (fun (_ : Nat) => AttemptSpec.timeout "x")
        ⟨⟨none, 100, 5000, []⟩, none⟩).attemptConfigs = [⟨none, 100, 5000, []⟩] ∧
     (run false (fun (_ : Nat) => AttemptSpec.timeout "x")
        ⟨⟨none, 100, 5000, []⟩, none⟩).finalConfig = ⟨none, 100, 5000, []⟩ ∧
     (run false (fun (_ : Nat) => AttemptSpec.timeout "x")
        ⟨⟨none, 100, 5000, []⟩, none⟩).finalOutput = none) ∧
    (run true (fun (_ : Nat) => AttemptSpec.timeout "x")
        ⟨⟨none, 100, 5000, []⟩, none⟩).attemptConfigs.take 2 =
      [⟨none, 100, 5000, []⟩, increase_request_count ⟨none, 100, 5000, []⟩] := by
  have h := claim_C4_amended (fun (_ : Nat) => AttemptSpec.timeout "x")
    ⟨⟨none, 100, 5000, []⟩, none⟩ "x" rfl
  exact ⟨h.1, h.2 (by decide)⟩

/-- Claim C5, evaluated on the code: for every non-empty batch-size list the
driver's first loop iteration constructs
`PerfAnalyzer(perf_config, stream_output=True)` without the required
`timeout` argument, so the sweep aborts with an unhandled `TypeError` before
the Execution Controller is ever invoked. -/
theorem claim_C5_driver_type_error (envs : Int → Nat → AttemptSpec) (csv : Int → List CsvRow)
    (mkcfg : Int → PerfConfig) (b : Int) (rest : List Int) (acc : List PyDict) :
    offline_performance envs csv mkcfg (b :: rest) acc = SweepResult.typeError := by
  simp [offline_performance, PerfAnalyzer.init]

/-- Claim C6: when the measurement mode is set to a value other than
"count_windows" (time-window mode) and the first two attempts fail with a
non-zero exit status and output containing "Please use a larger time window"
while the third attempt succeeds, the third invocation runs with a
`measurement-interval` equal to the initial value plus 4000 ms (two
adaptations of 2000 ms each) — in both capture modes. -/
theorem claim_C6_third_attempt_interval (stream : Bool) (env : Nat → AttemptSpec)
    (c0 : PerfConfig) (out0 : Option String) (m : String)
    (hm : c0.measurement_mode = some m) (hmc : ¬ m = "count_windows")
    (r1 r2 : Int) (o1 o2 o3 : String) (hr1 : ¬ r1 = 0) (hr2 : ¬ r2 = 0)
    (hc1 : pyContains o1 "Please use a larger time window" = true)
    (hc2 : pyContains o2 "Please use a larger time window" = true)
    (h0 : env 0 = AttemptSpec.completed r1 o1)
    (h1 : env 1 = AttemptSpec.completed r2 o2)
    (h2 : env 2 = AttemptSpec.completed 0 o3) :
    (run stream env ⟨c0, out0⟩).result = RunResult.completed ∧
    (run stream env ⟨c0, out0⟩).attemptConfigs =
      [c0, increase_time_interval c0, increase_time_interval (increase_time_interval c0)] ∧
    (increase_time_interval (increase_time_interval c0)).measurement_interval =
      c0.measurement_interval + 4000 := by
  have hf1 := faild_of_contains_window o1 hc1
  have hcond : ¬(c0.measurement_mode = none ∨ c0.measurement_mode = some "count_windows") := by
    simp [hm, hmc]
  have hcond2 : ¬((increase_time_interval c0).measurement_mode = none ∨
      (increase_time_interval c0).measurement_mode = some "count_windows") := by
    simp [increase_time_interval, hm, hmc]
  have harith : (increase_time_interval (increase_time_interval c0)).measurement_interval =
      c0.measurement_interval + 4000 := by
    simp [increase_time_interval, TIME_INTERVAL_DELTA]
    omega
  cases stream with
  | false =>
    have hf2 := faild_of_contains_window o2 hc2
    have s1 : attemptStep false (env 0) ⟨c0, out0⟩ =
        StepResult.retry ⟨increase_time_interval c0, out0⟩ := by
      simp [attemptStep, h0, classifyFailure, hf1, hcond, hr1]
    have s2 : attemptStep false (env 1) ⟨increase_time_interval c0, out0⟩ =
        StepResult.retry ⟨increase_time_interval (increase_time_interval c0), out0⟩ := by
      simp [attemptStep, h1, classifyFailure, hf2, hcond2, hr2]
    have s3 : attemptStep false (env 2) ⟨increase_time_interval (increase_time_interval c0), out0⟩ =
        StepResult.done ⟨increase_time_interval (increase_time_interval c0), some o3⟩ := by
      simp [attemptStep, h2]
    have hrun : runFrom false env MAX_INTERVAL_CHANGES 0 ⟨c0, out0⟩ =
        ([c0, increase_time_interval c0, increase_time_interval (increase_time_interval c0)],
         ⟨increase_time_interval (increase_time_interval c0), some o3⟩, RunResult.completed) := by
      rw [show (MAX_INTERVAL_CHANGES : Nat) = 9 + 1 from rfl,
        runFrom_step_retry false env 9 0 _ _ s1]
      rw [show (9 : Nat) = 8 + 1 from rfl, runFrom_step_retry false env 8 1 _ _ s2]
      rw [show (8 : Nat) = 7 + 1 from rfl, runFrom_step_done false env 7 2 _ _ s3]
    refine ⟨?_, ?_, harith⟩ <;> rw [run_def] <;> simp [hrun]
  | true =>
    have hf12 : faild_with_measruement_inverval (o1 ++ o2) = true :=
      faild_of_contains_window _ (pyContains_append_right o1 o2 _ hc2)
    have s1 : attemptStep true (env 0) ⟨c0, some ""⟩ =
        StepResult.retry ⟨increase_time_interval c0, some o1⟩ := by
      simp [attemptStep, h0, classifyFailure, string_empty_append, hf1, hcond, hr1]
    have s2 : attemptStep true (env 1) ⟨increase_time_interval c0, some o1⟩ =
        StepResult.retry ⟨increase_time_interval (increase_time_interval c0), some (o1 ++ o2)⟩ := by
      simp [attemptStep, h1, classifyFailure, hf12, hcond2, hr2]
    have s3 : attemptStep true (env 2)
        ⟨increase_time_interval (increase_time_interval c0), some (o1 ++ o2)⟩ =
        StepResult.done ⟨increase_time_interval (increase_time_interval c0),
          some ((o1 ++ o2) ++ o3)⟩ := by
      simp [attemptStep, h2]
    have hrun : runFrom true env MAX_INTERVAL_CHANGES 0 ⟨c0, some ""⟩ =
        ([c0, increase_time_interval c0, increase_time_interval (increase_time_interval c0)],
         ⟨increase_time_interval (increase_time_interval c0), some ((o1 ++ o2) ++ o3)⟩,
         RunResult.completed) := by
      rw [show (MAX_INTERVAL_CHANGES : Nat) = 9 + 1 from rfl,
        runFrom_step_retry true env 9 0 _ _ s1]
      rw [show (9 : Nat) = 8 + 1 from rfl, runFrom_step_retry true env 8 1 _ _ s2]
      rw [show (8 : Nat) = 7 + 1 from rfl, runFrom_step_done true env 7 2 _ _ s3]
    refine ⟨?_, ?_, harith⟩ <;> rw [run_def] <;> simp [hrun]

/-- Witness for C6: time-window mode with initial interval 10000 ms, two
window failures then success; the third attempt runs at 14000 ms. -/
theorem claim_C6_witness :
    (run true (fun i => if i = 0 then AttemptSpec.completed 1 "Please use a larger time window"
        else if i = 1 then AttemptSpec.completed 1 "Please use a larger time window"
        else AttemptSpec.completed 0 "ok")
      ⟨⟨some "time_windows", 0, 10000, []⟩, none⟩).result = RunResult.completed ∧
    (run true (fun i => if i = 0 then AttemptSpec.completed 1 "Please use a larger time window"
        else if i = 1 then AttemptSpec.completed 1 "Please use a larger time window"
        else AttemptSpec.completed 0 "ok")
      ⟨⟨some "time_windows", 0, 10000, []⟩, none⟩).attemptConfigs =
      [⟨some "time_windows", 0, 10000, []⟩,
       increase_time_interval ⟨some "time_windows", 0, 10000, []⟩,
       increase_time_interval (increase_time_interval ⟨some "time_windows", 0, 10000, []⟩)] ∧
    (increase_time_interval (increase_time_interval
        ⟨some "time_windows", 0, 10000, []⟩)).measurement_interval = 14000 := by
  exact claim_C6_third_attempt_interval true _ ⟨some "time_windows", 0, 10000, []⟩ none
    "time_windows" rfl (by decide) 1 1
    "Please use a larger time window" "Please use a larger time window" "ok"
    (by decide) (by decide) (by decide) (by decide) rfl rfl rfl

/-- Folding CSV rows over the accumulated dict preserves the `batch_size`
entry when no row has a `batch_size` column. -/
theorem foldl_mergeRow_batch_size (header : List String) (rs : List CsvRow)
    (hshare : ∀ r ∈ rs, ∀ k, (rowGet r k).isSome ↔ k ∈ header)
    (hbs : "batch_size" ∉ header) :
    ∀ row : PyDict, (rs.foldl mergeRow row) "batch_size" = row "batch_size" := by
  induction rs with
  | nil => intro row; rfl
  | cons r t ih =>
    intro row
    have hnone : rowGet r "batch_size" = none := by
      rw [← Option.not_isSome_iff_eq_none]
      intro hs
      exact hbs ((hshare r (by simp) "batch_size").mp hs)
    have ht := ih (fun r' hr' => hshare r' (by simp [hr']))
    simp only [List.foldl_cons]
    rw [ht (mergeRow row r)]
    simp [mergeRow, hnone]

/-- Claim C7: for a scratch metrics CSV with at least one row, all rows
sharing the header's column set (and the synthetic keys `batch_size` /
`avg latency` not among the CSV columns), the appended row holds exactly the
last CSV row's value for every CSV column, the batch size, and the average
latency derived from the last row. -/
theorem claim_C7_last_row (batch_size : Int) (header : List String)
    (rs : List CsvRow) (lastRow : CsvRow)
    (hshare : ∀ r ∈ rs ++ [lastRow], ∀ k, (rowGet r k).isSome ↔ k ∈ header)
    (hbs : "batch_size" ∉ header) (hal : "avg latency" ∉ header) :
    (∀ k ∈ header, update_performance_data batch_size (rs ++ [lastRow]) k = rowGet lastRow k) ∧
    update_performance_data batch_size (rs ++ [lastRow]) "batch_size" = some batch_size ∧
    update_performance_data batch_size (rs ++ [lastRow]) "avg latency" =
      some (calculate_average_latency lastRow) := by
  have hfold : update_performance_data batch_size (rs ++ [lastRow]) =
      mergeRow (rs.foldl mergeRow (fun k => if k = "batch_size" then some batch_size else none))
        lastRow := by
    simp [update_performance_data, List.foldl_append]
  refine ⟨?_, ?_, ?_⟩
  · intro k hk
    have hkal : ¬ k = "avg latency" := fun h => hal (h ▸ hk)
    have hsome : (rowGet lastRow k).isSome := (hshare lastRow (by simp) k).mpr hk
    obtain ⟨v, hv⟩ := Option.isSome_iff_exists.mp hsome
    rw [hfold]
    simp [mergeRow, hkal, hv]
  · have hnone : rowGet lastRow "batch_size" = none := by
      rw [← Option.not_isSome_iff_eq_none]
      intro hs
      exact hbs ((hshare lastRow (by simp) "batch_size").mp hs)
    have hprev : (rs.foldl mergeRow
        (fun k => if k = "batch_size" then some batch_size else none)) "batch_size"
        = some batch_size := by
      rw [foldl_mergeRow_batch_size header rs (fun r hr => hshare r (by simp [hr])) hbs]
      simp
    rw [hfold]
    simp [mergeRow, hnone, hprev]
  · rw [hfold]
    simp [mergeRow]

/-- Witness for C7: two rows over header ["Client Send"]; the appended row
takes the last row's value 7, the batch size 4, and latency 7. -/
theorem claim_C7_witness :
    update_performance_data 4 [[("Client Send", 3)], [("Client Send", 7)]] "Client Send" = some 7 ∧
    update_performance_data 4 [[("Client Send", 3)], [("Client Send", 7)]] "batch_size" = some 4 ∧
    update_performance_data 4 [[("Client Send", 3)], [("Client Send", 7)]] "avg latency" = some 7 := by
  have hshare : ∀ r ∈ ([[("Client Send", (3 : Int))]] ++ [[("Client Send", (7 : Int))]]),
      ∀ k, (rowGet r k).isSome ↔ k ∈ ["Client Send"] := by
    intro r hr k
    simp only [List.mem_append, List.mem_singleton] at hr
    rcases hr with hr | hr <;> subst hr <;> by_cases hk : "Client Send" = k <;>
      simp [rowGet, List.find?, hk, eq_comm] <;>
      exact fun h => hk h.symm
  have h := claim_C7_last_row 4 ["Client Send"] [[("Client Send", 3)]] [("Client Send", 7)]
    hshare (by decide) (by decide)
  exact ⟨h.1 "Client Send" (by simp), h.2.1, h.2.2⟩

/-- Claim C8: the derived average latency of a row is the sum of the eight
latency-component fields, absent fields counting as zero; in particular a row
with Client Send 10 and Server Queue 5 (others absent) yields 15. -/
theorem claim_C8_average_latency :
    (∀ r : CsvRow, calculate_average_latency r =
      (rowGet r "Client Send").getD 0 + (rowGet r "Network+Server Send/Recv").getD 0 +
      (rowGet r "Server Queue").getD 0 + (rowGet r "Server Compute").getD 0 +
      (rowGet r "Server Compute Input").getD 0 + (rowGet r "Server Compute Infer").getD 0 +
      (rowGet r "Server Compute Output").getD 0 + (rowGet r "Client Recv").getD 0) ∧
    calculate_average_latency [("Client Send", 10), ("Server Queue", 5)] = 15 := by
  constructor
  · intro r
    simp [calculate_average_latency, avg_sum_fields]
    ring
  · decide

/-- Claim C9: in streamed mode the accumulator is reset once at the start of
`run` and never between attempts: a completed run stores the concatenation of
the outputs of all attempts performed, and the failure of attempt `k` carries
the concatenation of the outputs of attempts 1 through `k`. -/
theorem claim_C9_stream_accumulation (env : Nat → AttemptSpec) (st0 : RunState) :
    ((run true env st0).result = RunResult.completed →
      (run true env st0).finalOutput =
        some (segTexts env 0 (run true env st0).attemptConfigs.length)) ∧
    (∀ rc out, (run true env st0).result = RunResult.failedAttempt rc out →
      out = segTexts env 0 (run true env st0).attemptConfigs.length) := by
  have h := runFrom_stream_acc env MAX_INTERVAL_CHANGES 0 { st0 with output := some "" } "" rfl
  constructor
  · intro hc
    rw [run_def] at hc ⊢
    simp only [if_true] at hc ⊢
    have h1 := h.1 (by simpa using hc)
    simpa [string_empty_append] using h1
  · intro rc out hc
    rw [run_def] at hc
    simp only [if_true] at hc
    have h2 := h.2 rc out (by simpa using hc)
    rw [run_def]
    simp only [if_true]
    simpa [string_empty_append] using h2

/-- Witness for C9: a retried first attempt then success accumulates both
texts; a fatal first attempt carries its own text as the concatenation so
far. -/
theorem claim_C9_witness :
    (run true (fun i => if i = 0 then AttemptSpec.completed 1 "abc " else AttemptSpec.completed 0 "def")
        ⟨⟨none, 0, 0, []⟩, none⟩).finalOutput =
      some (segTexts
        (fun i => if i = 0 then AttemptSpec.completed 1 "abc " else AttemptSpec.completed 0 "def") 0
        (run true (fun i => if i = 0 then AttemptSpec.completed 1 "abc " else AttemptSpec.completed 0 "def")
          ⟨⟨none, 0, 0, []⟩, none⟩).attemptConfigs.length) ∧
    "Failed to obtain stable measurement" =
      segTexts (fun (_ : Nat) => AttemptSpec.completed 2 "Failed to obtain stable measurement") 0
        (run true (fun (_ : Nat) => AttemptSpec.completed 2 "Failed to obtain stable measurement")
          ⟨⟨none, 0, 0, []⟩, none⟩).attemptConfigs.length := by
  constructor
  · exact (claim_C9_stream_accumulation _ _).1 (by decide)
  · exact (claim_C9_stream_accumulation _ _).2 2 "Failed to obtain stable measurement" (by decide)

/-- Claim C10: `output()` raises the "without calling run first" error
whenever the stored output is `None` or empty — in particular after a run
that completed successfully with an empty captured output. -/
theorem claim_C10_output_empty_raises (env : Nat → AttemptSpec) (st0 : RunState)
    (h0 : env 0 = AttemptSpec.completed 0 "") :
    (∀ o : Option String, PerfAnalyzer.output o = Except.error runFirstError ↔
      (o = none ∨ o = some "")) ∧
    ((run false env st0).result = RunResult.completed ∧
     (run false env st0).finalOutput = some "" ∧
     PerfAnalyzer.output (run false env st0).finalOutput = Except.error runFirstError) := by
  constructor
  · intro o
    cases o with
    | none => simp [PerfAnalyzer.output]
    | some s =>
      by_cases hs : s = ""
      · simp [PerfAnalyzer.output, hs]
      · simp [PerfAnalyzer.output, hs]
  · have hstep : attemptStep false (env 0) st0 = StepResult.done { st0 with output := some "" } := by
      simp [attemptStep, h0]
    have hrun : runFrom false env MAX_INTERVAL_CHANGES 0 st0 =
        ([st0.config], { st0 with output := some "" }, RunResult.completed) := by
      rw [show (MAX_INTERVAL_CHANGES : Nat) = 9 + 1 from rfl,
        runFrom_step_done false env 9 0 _ _ hstep]
    refine ⟨?_, ?_, ?_⟩ <;> rw [run_def] <;> simp [hrun, PerfAnalyzer.output]

/-- Witness for C10: a successful run with empty captured output, after which
`output()` still raises. -/
theorem claim_C10_witness :
    PerfAnalyzer.output (some "") = Except.error runFirstError ∧
    (run false (fun (_ : Nat) => AttemptSpec.completed 0 "") ⟨⟨none, 0, 0, []⟩, none⟩).result
      = RunResult.completed ∧
    (run false (fun (_ : Nat) => AttemptSpec.completed 0 "") ⟨⟨none, 0, 0, []⟩, none⟩).finalOutput
      = some "" ∧
    PerfAnalyzer.output
      (run false (fun (_ : Nat) => AttemptSpec.completed 0 "") ⟨⟨none, 0, 0, []⟩, none⟩).finalOutput
      = Except.error runFirstError := by
  have h := claim_C10_output_empty_raises (fun (_ : Nat) => AttemptSpec.completed 0 "")
    ⟨⟨none, 0, 0, []⟩, none⟩ rfl
  exact ⟨(h.1 (some "")).mpr (Or.inr rfl), h.2.1, h.2.2.1, h.2.2.2⟩

end ModelNavigator
